import Mathlib

/-!
# Verification of the AI-Fitness-Agent deterministic tool layer

Shallow embedding of the deterministic logic of `src/tools/fitness_tools.py`:
`calculate_diet_plan`, `generate_workout_schedule`,
`find_youtube_workout_video` and `get_calories_for_food`.

Python floats are modelled as rationals (ℚ); Python's `round` builtin
(round-half-to-even) is modelled by `pyRound`.  External search results
(the Tavily client) are modelled as a value of type
`Except String (List SearchResult)`: the `error` case stands for an
exception raised during the lookup, which both adapter functions catch
and stringify.
-/

namespace FitnessAgent

/-- Python's `round` builtin on a rational: round half to even. -/
def pyRound (q : ℚ) : ℤ :=
  if q - ⌊q⌋ < 1/2 then ⌊q⌋
  else if 1/2 < q - ⌊q⌋ then ⌊q⌋ + 1
  else if ⌊q⌋ % 2 = 0 then ⌊q⌋ else ⌊q⌋ + 1

/-- Python's `str.lower()`, character by character (the ASCII fragment,
which covers every string the tool compares). -/
def pyLower (s : String) : String := String.mk (s.data.map Char.toLower)

/-- BMR via Mifflin-St Jeor, branching on the lowercased gender string
(`fitness_tools.py` lines 15-18). -/
def bmr (gender : String) (weight_kg height_cm : ℚ) (age : ℤ) : ℚ :=
  if pyLower gender = "male" then
    10 * weight_kg + (25/4) * height_cm - 5 * age + 5
  else
    10 * weight_kg + (25/4) * height_cm - 5 * age - 161

/-- The activity-multiplier table lookup with default 1.55
(`activity_multipliers.get(activity_level.lower(), 1.55)`, line 20-21).
1.2 = 6/5, 1.375 = 11/8, 1.55 = 31/20, 1.725 = 69/40. -/
def activityMultiplier (activity_level : String) : ℚ :=
  if pyLower activity_level = "sedentary" then 6/5
  else if pyLower activity_level = "light" then 11/8
  else if pyLower activity_level = "moderate" then 31/20
  else if pyLower activity_level = "active" then 69/40
  else 31/20

/-- `calories = bmr * multiplier` before the goal offset (line 21). -/
def baseCalories (gender activity_level : String) (weight_kg height_cm : ℚ)
    (age : ℤ) : ℚ :=
  bmr gender weight_kg height_cm age * activityMultiplier activity_level

/-- Calories after the goal offset (lines 23-30): weight_loss subtracts
400, muscle_gain adds 400, anything else leaves them unchanged.  The
goal string is compared case-sensitively, exactly as in the source. -/
def adjustedCalories (goal gender activity_level : String)
    (weight_kg height_cm : ℚ) (age : ℤ) : ℚ :=
  if goal = "weight_loss" then
    baseCalories gender activity_level weight_kg height_cm age - 400
  else if goal = "muscle_gain" then
    baseCalories gender activity_level weight_kg height_cm age + 400
  else
    baseCalories gender activity_level weight_kg height_cm age

/-- Unrounded macro targets, per goal branch (lines 23-30).  `cal` is the
goal-adjusted calorie total.  1.8 = 9/5, 0.25 = 1/4, 0.4 = 2/5,
0.3 = 3/10, 0.45 = 9/20. -/
structure Macros where
  protein_g : ℚ
  carbs_g : ℚ
  fat_g : ℚ
deriving DecidableEq

def macrosFor (goal : String) (weight_kg cal : ℚ) : Macros :=
  if goal = "weight_loss" then
    { protein_g := (9/5) * weight_kg, carbs_g := 150, fat_g := cal * (1/4) / 9 }
  else if goal = "muscle_gain" then
    { protein_g := 2 * weight_kg, carbs_g := cal * (2/5) / 4, fat_g := cal * (3/10) / 9 }
  else
    { protein_g := (9/5) * weight_kg, carbs_g := cal * (9/20) / 4, fat_g := cal * (1/4) / 9 }

/-- One record of the fixed meal template (lines 33-41). -/
structure MealDay where
  Day : String
  Breakfast : String
  Lunch : String
  Dinner : String
deriving DecidableEq

def meal_plan_by_day : List MealDay := [
  { Day := "Monday", Breakfast := "Oatmeal & Berries", Lunch := "Grilled Chicken Salad", Dinner := "Salmon & Veggies" },
  { Day := "Tuesday", Breakfast := "Scrambled Eggs", Lunch := "Quinoa Bowl", Dinner := "Lentil Soup" },
  { Day := "Wednesday", Breakfast := "Greek Yogurt & Nuts", Lunch := "Leftover Salmon", Dinner := "Turkey Stir-fry" },
  { Day := "Thursday", Breakfast := "Protein Smoothie", Lunch := "Leftover Stir-fry", Dinner := "Chicken Fajitas" },
  { Day := "Friday", Breakfast := "Oatmeal & Berries", Lunch := "Tuna Salad Sandwich", Dinner := "Lean Steak & Asparagus" },
  { Day := "Saturday", Breakfast := "Pancakes (Protein)", Lunch := "Leftover Steak", Dinner := "Healthy Pizza" },
  { Day := "Sunday", Breakfast := "Scrambled Eggs", Lunch := "Large Salad", Dinner := "Roast Chicken" }]

/-- The dictionary returned by `calculate_diet_plan` (lines 43-47), with
the three macro entries flattened into fields. -/
structure DietPlan where
  daily_calories : ℤ
  macros_protein_g : ℤ
  macros_carbs_g : ℤ
  macros_fat_g : ℤ
  weekly_meal_plan : List MealDay
deriving DecidableEq

/-- `calculate_diet_plan` (lines 8-47): BMR, activity multiplier, goal
offset, goal-specific macros, each numeric output rounded with Python's
`round`, plus the fixed 7-day meal template. -/
def calculate_diet_plan (goal : String) (weight_kg height_cm : ℚ) (age : ℤ)
    (gender activity_level : String) : DietPlan :=
  let cal := adjustedCalories goal gender activity_level weight_kg height_cm age
  let m := macrosFor goal weight_kg cal
  { daily_calories := pyRound cal
    macros_protein_g := pyRound m.protein_g
    macros_carbs_g := pyRound m.carbs_g
    macros_fat_g := pyRound m.fat_g
    weekly_meal_plan := meal_plan_by_day }

/-- One record of a workout template (lines 53-71). -/
structure WorkoutDay where
  Day : String
  WorkoutType : String
  ExampleExercises : String
deriving DecidableEq

/-- The muscle_gain strength/hypertrophy template (lines 53-61). -/
def strengthTemplate : List WorkoutDay := [
  { Day := "Monday", WorkoutType := "Upper Body Strength", ExampleExercises := "3x5 Bench Press, 3x8 Rows" },
  { Day := "Tuesday", WorkoutType := "Lower Body Strength", ExampleExercises := "3x5 Squats, 1x5 Deadlifts" },
  { Day := "Wednesday", WorkoutType := "Active Recovery", ExampleExercises := "30 min walk or stretching" },
  { Day := "Thursday", WorkoutType := "Upper Body Hypertrophy", ExampleExercises := "4x12 Incline Press, 4x15 Lat Pulldowns" },
  { Day := "Friday", WorkoutType := "Lower Body Hypertrophy", ExampleExercises := "4x12 Lunges, 4x15 Leg Curls" },
  { Day := "Saturday", WorkoutType := "Full Body / Cardio", ExampleExercises := "30 mins moderate cardio, planks" },
  { Day := "Sunday", WorkoutType := "Rest", ExampleExercises := "Full rest day" }]

/-- The general weight_loss/maintenance template (lines 63-71). -/
def generalTemplate : List WorkoutDay := [
  { Day := "Monday", WorkoutType := "Full Body Strength", ExampleExercises := "3x10 Goblet Squats, 3x12 Push-ups" },
  { Day := "Tuesday", WorkoutType := "HIIT Cardio", ExampleExercises := "20 mins: 30s sprint, 60s rest" },
  { Day := "Wednesday", WorkoutType := "Active Recovery", ExampleExercises := "30 min walk" },
  { Day := "Thursday", WorkoutType := "Full Body Strength", ExampleExercises := "3x10 Overhead Press, 3x12 Lunges" },
  { Day := "Friday", WorkoutType := "Steady-State Cardio", ExampleExercises := "45 mins jogging or cycling" },
  { Day := "Saturday", WorkoutType := "Core & Flexibility", ExampleExercises := "3 sets of leg raises, planks" },
  { Day := "Sunday", WorkoutType := "Rest", ExampleExercises := "Full rest day" }]

/-- `generate_workout_schedule` (lines 49-71): a case-sensitive test of
the goal string selects one of the two static templates; the
experience_level argument is never consulted. -/
def generate_workout_schedule (goal experience_level : String) :
    List WorkoutDay :=
  if goal = "muscle_gain" then strengthTemplate else generalTemplate

/-- One Tavily search-result dictionary; each field is optional because
the code reads them defensively with `.get`. -/
structure SearchResult where
  url : Option String
  title : Option String
  content : Option String
deriving DecidableEq

/-- `needle` occurs as a contiguous sublist of `hay` (Python's `in` on
strings, on the character lists). -/
def listContainsSub (needle : List Char) : List Char → Bool
  | [] => needle.isEmpty
  | c :: t => needle.isPrefixOf (c :: t) || listContainsSub needle t

/-- Python's substring test `needle in hay`. -/
def strContains (hay needle : String) : Bool :=
  listContainsSub needle.toList hay.toList

/-- The YouTube-link test of line 93. -/
def isYouTubeUrl (url : String) : Bool :=
  strContains url "youtube.com/watch" || strContains url "youtu.be/"

/-- The Markdown link built on line 95, with the default title of
line 90 when the result has no title. -/
def mdLink (workout_type : String) (r : SearchResult) : String :=
  "[" ++ r.title.getD (workout_type ++ " Workout Video") ++ "](" ++
    r.url.getD "" ++ ")"

/-- The scanning loop of lines 88-98: first result whose url passes the
YouTube test wins; the no-match sentinel of line 98 otherwise. -/
def scanResults (workout_type : String) : List SearchResult → String
  | [] => "Could not find a direct YouTube video link in search results."
  | r :: rest =>
    if isYouTubeUrl (r.url.getD "") then mdLink workout_type r
    else scanResults workout_type rest

/-- `find_youtube_workout_video` (lines 74-100) applied to the outcome
of the Tavily call: an exception is caught and stringified (line 100),
an empty result list yields the line-85 sentinel, and otherwise the
results are scanned in order. -/
def find_youtube_workout_video (workout_type : String)
    (results : Except String (List SearchResult)) : String :=
  match results with
  | .error e => "Could not find a video link due to an error: " ++ e
  | .ok [] => "Could not find any relevant search results for a video."
  | .ok (r :: rest) => scanResults workout_type (r :: rest)

/-- `get_calories_for_food` (lines 103-121) applied to the outcome of
the Tavily call.  Python's truthiness test `results[0].get('content')`
fails both when the field is absent and when it is the empty string. -/
def get_calories_for_food (results : Except String (List SearchResult)) :
    String :=
  match results with
  | .error e => "Could not find calorie information due to an error: " ++ e
  | .ok [] => "Could not find calorie information."
  | .ok (r :: _) =>
    match r.content with
    | some c =>
      if c = "" then "Could not find calorie information in the search results."
      else c
    | none => "Could not find calorie information in the search results."

/-! ## Helper lemmas -/

/-- `pyRound` never moves a value by more than one half. -/
theorem pyRound_bounds (q : ℚ) :
    q - 1/2 ≤ (pyRound q : ℚ) ∧ (pyRound q : ℚ) ≤ q + 1/2 := by
  have h1 : ((⌊q⌋ : ℚ)) ≤ q := Int.floor_le q
  have h2 : q < (⌊q⌋ : ℚ) + 1 := Int.lt_floor_add_one q
  unfold pyRound
  split_ifs <;> constructor <;> push_cast <;> linarith

/-- `pyRound` commutes with adding the even integer 400. -/
theorem pyRound_add_400 (q : ℚ) : pyRound (q + 400) = pyRound q + 400 := by
  have hf : ⌊q + (400 : ℚ)⌋ = ⌊q⌋ + 400 := by
    rw [show ((400 : ℚ)) = ((400 : ℤ) : ℚ) by norm_num, Int.floor_add_int]
  have h2 : (q + 400) - ((⌊q⌋ + 400 : ℤ) : ℚ) = q - ⌊q⌋ := by push_cast; ring
  unfold pyRound
  rw [hf, h2]
  have h3 : (⌊q⌋ + 400) % 2 = ⌊q⌋ % 2 := by omega
  rw [h3]
  split_ifs <;> omega

/-- `pyRound` of a nonnegative rational is nonnegative. -/
theorem pyRound_nonneg {q : ℚ} (h : 0 ≤ q) : 0 ≤ pyRound q := by
  have hb := (pyRound_bounds q).1
  have h1 : (-1 : ℚ) < (pyRound q : ℚ) := by linarith
  have h2 : (-1 : ℤ) < pyRound q := by exact_mod_cast h1
  omega

/-- The calendar day names in the fixed Monday-through-Sunday order. -/
def dayNames : List String :=
  ["Monday", "Tuesday", "Wednesday", "Thursday", "Friday", "Saturday", "Sunday"]

/-! ## Claims -/

/-- C4: for every (goal, experience_level) pair, `generate_workout_schedule`
returns exactly one of the two static 7-day templates; the strength template
is returned precisely when the goal string equals "muscle_gain", every other
goal (unrecognized strings included) gets the general template, and the
result does not depend on experience_level. -/
theorem generate_workout_schedule_two_templates (goal e : String) :
    (generate_workout_schedule goal e = strengthTemplate ↔ goal = "muscle_gain") ∧
    (generate_workout_schedule goal e = strengthTemplate ∨
      generate_workout_schedule goal e = generalTemplate) ∧
    (∀ e', generate_workout_schedule goal e = generate_workout_schedule goal e') := by
  have hne : strengthTemplate ≠ generalTemplate := by decide
  unfold generate_workout_schedule
  by_cases hg : goal = "muscle_gain" <;> simp [hg, hne, hne.symm]

/-- C4 witness: goal "muscle_gain" with a beginner experience level selects
the strength template. -/
theorem generate_workout_schedule_two_templates_witness :
    generate_workout_schedule "muscle_gain" "beginner" = strengthTemplate :=
  (generate_workout_schedule_two_templates "muscle_gain" "beginner").1.mpr rfl

/-- C5: the weekly meal plan of every diet plan and the workout schedule for
every (goal, experience_level) pair have exactly 7 day-records whose Day
fields are the calendar day names in Monday-through-Sunday order. -/
theorem seven_days_in_order (goal gender lvl e : String) (w h : ℚ) (a : ℤ) :
    (calculate_diet_plan goal w h a gender lvl).weekly_meal_plan.length = 7 ∧
    (calculate_diet_plan goal w h a gender lvl).weekly_meal_plan.map MealDay.Day
      = dayNames ∧
    (generate_workout_schedule goal e).length = 7 ∧
    (generate_workout_schedule goal e).map WorkoutDay.Day = dayNames := by
  refine ⟨?_, ?_, ?_, ?_⟩
  · simp [calculate_diet_plan]; decide
  · simp [calculate_diet_plan]; decide
  · unfold generate_workout_schedule; split_ifs <;> decide
  · unfold generate_workout_schedule; split_ifs <;> decide

/-- The scanning loop returns the no-match sentinel when no result has a
YouTube URL. -/
theorem scanResults_no_match (wt : String) (rs : List SearchResult)
    (hno : ∀ r ∈ rs, isYouTubeUrl (r.url.getD "") = false) :
    scanResults wt rs
      = "Could not find a direct YouTube video link in search results." := by
  induction rs with
  | nil => rfl
  | cons r rest ih =>
    have hr := hno r (List.mem_cons_self r rest)
    rw [scanResults, hr]
    simp only [Bool.false_eq_true, if_false]
    exact ih fun r' hr' => hno r' (List.mem_cons_of_mem r hr')

/-- The scanning loop returns the Markdown link of the first result whose
URL passes the YouTube test. -/
theorem scanResults_first_match (wt : String) (pre : List SearchResult)
    (r : SearchResult) (post : List SearchResult)
    (hpre : ∀ r' ∈ pre, isYouTubeUrl (r'.url.getD "") = false)
    (hr : isYouTubeUrl (r.url.getD "") = true) :
    scanResults wt (pre ++ r :: post) = mdLink wt r := by
  induction pre with
  | nil => rw [List.nil_append, scanResults, hr, if_pos rfl]
  | cons p rest ih =>
    have hp := hpre p (List.mem_cons_self p rest)
    rw [List.cons_append, scanResults, hp]
    simp only [Bool.false_eq_true, if_false]
    exact ih fun r' hr' => hpre r' (List.mem_cons_of_mem p hr')

/-- C6: `find_youtube_workout_video` scans the search results in order and
builds a title-plus-URL Markdown link from the first result whose URL
contains "youtube.com/watch" or "youtu.be/" (first match wins even when it
is not the first result); it returns a "not found" sentinel when the result
list is empty or no URL matches; and an exception during the lookup is
converted to a descriptive string, so every outcome is a plain string. -/
theorem find_youtube_workout_video_spec (wt : String) :
    (∀ e, find_youtube_workout_video wt (.error e)
        = "Could not find a video link due to an error: " ++ e) ∧
    (find_youtube_workout_video wt (.ok [])
        = "Could not find any relevant search results for a video.") ∧
    (∀ rs : List SearchResult, rs ≠ [] →
      (∀ r ∈ rs, isYouTubeUrl (r.url.getD "") = false) →
      find_youtube_workout_video wt (.ok rs)
        = "Could not find a direct YouTube video link in search results.") ∧
    (∀ (pre : List SearchResult) (r : SearchResult) (post : List SearchResult),
      (∀ r' ∈ pre, isYouTubeUrl (r'.url.getD "") = false) →
      isYouTubeUrl (r.url.getD "") = true →
      find_youtube_workout_video wt (.ok (pre ++ r :: post))
        = "[" ++ r.title.getD (wt ++ " Workout Video") ++ "]("
            ++ r.url.getD "" ++ ")") := by
  refine ⟨fun e => rfl, rfl, ?_, ?_⟩
  · intro rs hne hno
    match rs, hne with
    | r :: rest, _ =>
      show scanResults wt (r :: rest) = _
      exact scanResults_no_match wt (r :: rest) hno
  · intro pre r post hpre hr
    have key := scanResults_first_match wt pre r post hpre hr
    cases pre with
    | nil => exact key
    | cons p rest => exact key

/-- C6 witness: with a non-YouTube first result and a matching second
result, the link of the second result is returned. -/
theorem find_youtube_workout_video_spec_witness :
    find_youtube_workout_video "cardio"
      (.ok [⟨some "https://example.com/a", some "Other", none⟩,
            ⟨some "https://www.youtube.com/watch?v=abc", some "Video", none⟩])
      = "[Video](https://www.youtube.com/watch?v=abc)" := by
  have key := (find_youtube_workout_video_spec "cardio").2.2.2
    [⟨some "https://example.com/a", some "Other", none⟩]
    ⟨some "https://www.youtube.com/watch?v=abc", some "Video", none⟩ []
    (by decide) (by decide)
  simpa using key

/-- C7: `get_calories_for_food` returns the content field of the first
result verbatim when it is present and non-empty, a "not found" sentinel
when the result list is empty or the first result has no content, and
converts an exception during the lookup to a descriptive string. -/
theorem get_calories_for_food_spec :
    (∀ e, get_calories_for_food (.error e)
        = "Could not find calorie information due to an error: " ++ e) ∧
    (get_calories_for_food (.ok [])
        = "Could not find calorie information.") ∧
    (∀ (r : SearchResult) (rest : List SearchResult) (c : String),
      r.content = some c → c ≠ "" →
      get_calories_for_food (.ok (r :: rest)) = c) ∧
    (∀ (r : SearchResult) (rest : List SearchResult),
      r.content = none →
      get_calories_for_food (.ok (r :: rest))
        = "Could not find calorie information in the search results.") := by
  refine ⟨fun e => rfl, rfl, ?_, ?_⟩
  · intro r rest c hc hne
    show (match r.content with
      | some c =>
        if c = "" then "Could not find calorie information in the search results."
        else c
      | none => "Could not find calorie information in the search results.") = c
    rw [hc]
    simp [hne]
  · intro r rest hc
    show (match r.content with
      | some c =>
        if c = "" then "Could not find calorie information in the search results."
        else c
      | none => "Could not find calorie information in the search results.") = _
    rw [hc]

/-- C7 witness: a first result carrying content "95 calories" is returned
verbatim. -/
theorem get_calories_for_food_spec_witness :
    get_calories_for_food (.ok [⟨none, none, some "95 calories"⟩])
      = "95 calories" :=
  get_calories_for_food_spec.2.2.1 ⟨none, none, some "95 calories"⟩ []
    "95 calories" rfl (by decide)

/-- C1 counterexample: rounding the BMR first and then multiplying by the
activity factor does not give the returned daily_calories.  At
(weight 85, height 180, age 32, male, light) the code returns
round(1820 * 1.375) = 2502 while round(1820) * 1.375 = 2502.5. -/
theorem bmr_round_placement_counterexample :
    ¬ (((calculate_diet_plan "maintenance" 85 180 32 "male" "light").daily_calories : ℚ)
        = (pyRound (10 * 85 + (25/4) * 180 - 5 * 32 + 5) : ℚ)
            * activityMultiplier "light") := by
  simp +decide [calculate_diet_plan, adjustedCalories, baseCalories, bmr,
    activityMultiplier, macrosFor]
  norm_num [pyRound]

/-- C1 amended: with goal maintenance and a recognized activity_level of
multiplier m, the returned daily_calories equals the Mifflin-St Jeor BMR
times m, rounded after the multiplication: round((10w + 6.25h - 5a + 5) * m)
for gender "male" (case-insensitively), and the -161 constant for any other
gender. -/
theorem calculate_diet_plan_bmr_formula (w h : ℚ) (a : ℤ) (gender lvl : String)
    (m : ℚ)
    (hm : (pyLower lvl = "sedentary" ∧ m = 6/5) ∨ (pyLower lvl = "light" ∧ m = 11/8)
        ∨ (pyLower lvl = "moderate" ∧ m = 31/20) ∨ (pyLower lvl = "active" ∧ m = 69/40)) :
    (pyLower gender = "male" →
      (calculate_diet_plan "maintenance" w h a gender lvl).daily_calories
        = pyRound ((10 * w + (25/4) * h - 5 * a + 5) * m)) ∧
    (pyLower gender ≠ "male" →
      (calculate_diet_plan "maintenance" w h a gender lvl).daily_calories
        = pyRound ((10 * w + (25/4) * h - 5 * a - 161) * m)) := by
  have hmul : activityMultiplier lvl = m := by
    rcases hm with ⟨h1, h2⟩ | ⟨h1, h2⟩ | ⟨h1, h2⟩ | ⟨h1, h2⟩ <;>
      simp +decide [activityMultiplier, h1, h2]
  constructor <;> intro hg <;>
    simp +decide [calculate_diet_plan, adjustedCalories, baseCalories, bmr,
      hmul, hg, macrosFor]

/-- C1 witness: the amended formula instantiated at
(85, 180, 32, male, light). -/
theorem calculate_diet_plan_bmr_formula_witness :
    (calculate_diet_plan "maintenance" 85 180 32 "male" "light").daily_calories
      = pyRound ((10 * 85 + (25/4) * 180 - 5 * 32 + 5) * (11/8)) :=
  (calculate_diet_plan_bmr_formula 85 180 32 "male" "light" (11/8)
    (Or.inr (Or.inl ⟨by decide, by norm_num⟩))).1 (by decide)

/-- C3 counterexample: at (85, 180, 32, male, light) the muscle_gain plan
has 2902 daily calories and the maintenance plan 2502, a difference of 400,
not 800. -/
theorem goal_offset_counterexample :
    (calculate_diet_plan "muscle_gain" 85 180 32 "male" "light").daily_calories
      - (calculate_diet_plan "maintenance" 85 180 32 "male" "light").daily_calories
      ≠ 800 := by
  simp +decide [calculate_diet_plan, adjustedCalories, baseCalories, bmr,
    activityMultiplier, macrosFor]
  norm_num [pyRound]

/-- C3 amended: holding every other input fixed, the daily_calories for goal
muscle_gain exceed the daily_calories for goal maintenance by exactly 400
(the muscle_gain offset; the 800 gap is between muscle_gain and
weight_loss). -/
theorem goal_offset_muscle_gain_vs_maintenance (w h : ℚ) (a : ℤ)
    (gender lvl : String) :
    (calculate_diet_plan "muscle_gain" w h a gender lvl).daily_calories
      - (calculate_diet_plan "maintenance" w h a gender lvl).daily_calories
      = 400 := by
  simp +decide [calculate_diet_plan, adjustedCalories, macrosFor]
  rw [pyRound_add_400]
  omega

/-- C2 counterexample: the weight_loss carbs are the constant 150, not a
percentage of the goal-adjusted calories over 4 kcal/g: no single
percentage p reproduces carbs_g at both weight 85 (2102.5 adjusted
calories) and weight 385 (6227.5 adjusted calories). -/
theorem weight_loss_carbs_not_percentage :
    ¬ ∃ p : ℚ,
      ((calculate_diet_plan "weight_loss" 85 180 32 "male" "light").macros_carbs_g
        = pyRound (adjustedCalories "weight_loss" "male" "light" 85 180 32 * p / 4)) ∧
      ((calculate_diet_plan "weight_loss" 385 180 32 "male" "light").macros_carbs_g
        = pyRound (adjustedCalories "weight_loss" "male" "light" 385 180 32 * p / 4)) := by
  rintro ⟨p, h1, h2⟩
  have e1 : (calculate_diet_plan "weight_loss" 85 180 32 "male" "light").macros_carbs_g
      = 150 := by
    simp +decide [calculate_diet_plan, adjustedCalories, baseCalories, bmr,
      activityMultiplier, macrosFor]
    norm_num [pyRound]
  have e2 : (calculate_diet_plan "weight_loss" 385 180 32 "male" "light").macros_carbs_g
      = 150 := by
    simp +decide [calculate_diet_plan, adjustedCalories, baseCalories, bmr,
      activityMultiplier, macrosFor]
    norm_num [pyRound]
  have a1 : adjustedCalories "weight_loss" "male" "light" 85 180 32 = 4205/2 := by
    simp +decide [adjustedCalories, baseCalories, bmr, activityMultiplier]
    norm_num
  have a2 : adjustedCalories "weight_loss" "male" "light" 385 180 32 = 12455/2 := by
    simp +decide [adjustedCalories, baseCalories, bmr, activityMultiplier]
    norm_num
  rw [e1, a1] at h1
  rw [e2, a2] at h2
  have b1 := pyRound_bounds (4205/2 * p / 4)
  have b2 := pyRound_bounds (12455/2 * p / 4)
  rw [← h1] at b1
  rw [← h2] at b2
  push_cast at b1 b2
  linarith [b1.1, b1.2, b2.1, b2.2]

/-- C2 amended: protein_g is round(1.8·w) for weight_loss and maintenance and
round(2.0·w) for muscle_gain; fat_g is a goal percentage of the adjusted
calories over 9 kcal/g for every goal (25%, 30%, 25%); carbs_g follows the
percentage-over-4 kcal/g rule only for muscle_gain (40%) and maintenance
(45%), while for weight_loss it is the constant 150 grams. -/
theorem macros_formulas (w h : ℚ) (a : ℤ) (gender lvl : String) :
    ((calculate_diet_plan "weight_loss" w h a gender lvl).macros_protein_g
        = pyRound ((9/5) * w) ∧
      (calculate_diet_plan "weight_loss" w h a gender lvl).macros_carbs_g = 150 ∧
      (calculate_diet_plan "weight_loss" w h a gender lvl).macros_fat_g
        = pyRound (adjustedCalories "weight_loss" gender lvl w h a * (1/4) / 9)) ∧
    ((calculate_diet_plan "muscle_gain" w h a gender lvl).macros_protein_g
        = pyRound (2 * w) ∧
      (calculate_diet_plan "muscle_gain" w h a gender lvl).macros_carbs_g
        = pyRound (adjustedCalories "muscle_gain" gender lvl w h a * (2/5) / 4) ∧
      (calculate_diet_plan "muscle_gain" w h a gender lvl).macros_fat_g
        = pyRound (adjustedCalories "muscle_gain" gender lvl w h a * (3/10) / 9)) ∧
    ((calculate_diet_plan "maintenance" w h a gender lvl).macros_protein_g
        = pyRound ((9/5) * w) ∧
      (calculate_diet_plan "maintenance" w h a gender lvl).macros_carbs_g
        = pyRound (adjustedCalories "maintenance" gender lvl w h a * (9/20) / 4) ∧
      (calculate_diet_plan "maintenance" w h a gender lvl).macros_fat_g
        = pyRound (adjustedCalories "maintenance" gender lvl w h a * (1/4) / 9)) := by
  refine ⟨⟨?_, ?_, ?_⟩, ⟨?_, ?_, ?_⟩, ⟨?_, ?_, ?_⟩⟩ <;>
    simp +decide [calculate_diet_plan, macrosFor] <;>
    norm_num [pyRound]

/-- C8: the activity factor comes from the fixed table
{sedentary: 1.2, light: 1.375, moderate: 1.55, active: 1.725}; any
activity_level whose lowercasing is outside the table behaves exactly like
"moderate" (factor 1.55) instead of failing, and daily_calories is always
the BMR times the factor plus the goal offset, whatever the goal, gender
and activity strings are. -/
theorem activity_table_and_fallback (goal gender lvl : String) (w h : ℚ) (a : ℤ) :
    (activityMultiplier "sedentary" = 6/5 ∧ activityMultiplier "light" = 11/8 ∧
      activityMultiplier "moderate" = 31/20 ∧ activityMultiplier "active" = 69/40) ∧
    (pyLower lvl ∉ (["sedentary", "light", "moderate", "active"] : List String) →
      calculate_diet_plan goal w h a gender lvl
        = calculate_diet_plan goal w h a gender "moderate") ∧
    (calculate_diet_plan goal w h a gender lvl).daily_calories
      = pyRound (bmr gender w h a * activityMultiplier lvl
          + (if goal = "weight_loss" then -400
             else if goal = "muscle_gain" then 400 else 0)) := by
  refine ⟨by refine ⟨?_, ?_, ?_, ?_⟩ <;> simp +decide [activityMultiplier], ?_, ?_⟩
  · intro hmem
    simp only [List.mem_cons, List.mem_singleton, not_or] at hmem
    obtain ⟨n1, n2, n3, n4⟩ := hmem
    have hmul : activityMultiplier lvl = activityMultiplier "moderate" := by
      simp +decide [activityMultiplier, n1, n2, n3, n4]
    simp [calculate_diet_plan, adjustedCalories, baseCalories, hmul]
  · by_cases h1 : goal = "weight_loss"
    · simp [calculate_diet_plan, adjustedCalories, baseCalories, h1]
      congr 1
      ring
    · by_cases h2 : goal = "muscle_gain" <;>
        simp [calculate_diet_plan, adjustedCalories, baseCalories, h1, h2]

/-- C8 witness: the unrecognized activity level "extreme" behaves like
"moderate", and the table holds. -/
theorem activity_table_and_fallback_witness :
    calculate_diet_plan "maintenance" 85 180 32 "male" "extreme"
      = calculate_diet_plan "maintenance" 85 180 32 "male" "moderate" :=
  (activity_table_and_fallback "maintenance" "male" "extreme" 85 180 32).2.1
    (by decide)

/-- C9 counterexample: at weight -10 kg (the function accepts any numeric
weight) the maintenance plan has protein_g = round(1.8 * (-10)) = -18 < 0. -/
theorem macros_nonneg_counterexample :
    (calculate_diet_plan "maintenance" (-10) 0 0 "male" "moderate").macros_protein_g
      < 0 := by
  simp +decide [calculate_diet_plan, adjustedCalories, baseCalories, bmr,
    activityMultiplier, macrosFor]
  norm_num [pyRound]

/-- Unrounded macros are nonnegative whenever the weight and the adjusted
calories are. -/
theorem macrosFor_nonneg (goal : String) {w cal : ℚ} (hw : 0 ≤ w)
    (hcal : 0 ≤ cal) :
    0 ≤ (macrosFor goal w cal).protein_g ∧ 0 ≤ (macrosFor goal w cal).carbs_g ∧
      0 ≤ (macrosFor goal w cal).fat_g := by
  unfold macrosFor
  split_ifs
  · exact ⟨mul_nonneg (by norm_num) hw, by norm_num,
      div_nonneg (mul_nonneg hcal (by norm_num)) (by norm_num)⟩
  · exact ⟨mul_nonneg (by norm_num) hw,
      div_nonneg (mul_nonneg hcal (by norm_num)) (by norm_num),
      div_nonneg (mul_nonneg hcal (by norm_num)) (by norm_num)⟩
  · exact ⟨mul_nonneg (by norm_num) hw,
      div_nonneg (mul_nonneg hcal (by norm_num)) (by norm_num),
      div_nonneg (mul_nonneg hcal (by norm_num)) (by norm_num)⟩

/-- C9 amended: the rounded macro values protein_g, carbs_g and fat_g are
all nonnegative for every input whose weight_kg is nonnegative and whose
goal-adjusted calorie total is nonnegative; for negative weights or calorie
totals driven negative the invariant fails (see the counterexample). -/
theorem diet_plan_macros_nonneg (goal gender lvl : String) (w h : ℚ) (a : ℤ)
    (hw : 0 ≤ w) (hcal : 0 ≤ adjustedCalories goal gender lvl w h a) :
    0 ≤ (calculate_diet_plan goal w h a gender lvl).macros_protein_g ∧
    0 ≤ (calculate_diet_plan goal w h a gender lvl).macros_carbs_g ∧
    0 ≤ (calculate_diet_plan goal w h a gender lvl).macros_fat_g := by
  have hm := macrosFor_nonneg goal hw hcal
  exact ⟨pyRound_nonneg hm.1, pyRound_nonneg hm.2.1, pyRound_nonneg hm.2.2⟩

/-- C9 witness: the nonnegativity at (maintenance, 85, 180, 32, male,
light). -/
theorem diet_plan_macros_nonneg_witness :
    0 ≤ (calculate_diet_plan "maintenance" 85 180 32 "male" "light").macros_protein_g ∧
    0 ≤ (calculate_diet_plan "maintenance" 85 180 32 "male" "light").macros_carbs_g ∧
    0 ≤ (calculate_diet_plan "maintenance" 85 180 32 "male" "light").macros_fat_g :=
  diet_plan_macros_nonneg "maintenance" "male" "light" 85 180 32 (by norm_num)
    (by simp +decide [adjustedCalories, baseCalories, bmr, activityMultiplier]
        norm_num)

/-- C10: gender and activity_level are compared after lowercasing ("MALE"
and "MODERATE" behave exactly like "male" and "moderate"), while the goal
string is matched case-sensitively in both functions: "Muscle_Gain" falls
into the maintenance branch of calculate_diet_plan and gets the general
workout template, although its lowercasing is exactly "muscle_gain", which
selects the muscle_gain branches. -/
theorem goal_case_sensitive_gender_activity_insensitive :
    (∀ (goal : String) (w h : ℚ) (a : ℤ) (lvl : String),
      calculate_diet_plan goal w h a "MALE" lvl
        = calculate_diet_plan goal w h a "male" lvl) ∧
    (∀ (goal : String) (w h : ℚ) (a : ℤ) (gender : String),
      calculate_diet_plan goal w h a gender "MODERATE"
        = calculate_diet_plan goal w h a gender "moderate") ∧
    (∀ (w h : ℚ) (a : ℤ) (gender lvl : String),
      calculate_diet_plan "Muscle_Gain" w h a gender lvl
        = calculate_diet_plan "maintenance" w h a gender lvl) ∧
    (∀ e, generate_workout_schedule "Muscle_Gain" e = generalTemplate) ∧
    pyLower "Muscle_Gain" = "muscle_gain" ∧
    (∀ e, generate_workout_schedule "muscle_gain" e = strengthTemplate) ∧
    calculate_diet_plan "muscle_gain" 85 180 32 "male" "light"
      ≠ calculate_diet_plan "Muscle_Gain" 85 180 32 "male" "light" := by
  refine ⟨?_, ?_, ?_, ?_, by decide, ?_, ?_⟩
  · intro goal w h a lvl
    simp +decide [calculate_diet_plan, adjustedCalories, baseCalories, bmr]
  · intro goal w h a gender
    simp +decide [calculate_diet_plan, adjustedCalories, baseCalories,
      activityMultiplier]
  · intro w h a gender lvl
    simp +decide [calculate_diet_plan, adjustedCalories, macrosFor]
  · intro e
    simp +decide [generate_workout_schedule]
  · intro e
    simp +decide [generate_workout_schedule]
  · intro hEq
    have hcal := congrArg DietPlan.daily_calories hEq
    simp +decide [calculate_diet_plan, adjustedCalories, baseCalories, bmr,
      activityMultiplier, macrosFor] at hcal
    norm_num [pyRound] at hcal

/-- C10 witness: an uppercase gender string gives the same plan as its
lowercase form at a concrete input. -/
theorem goal_case_sensitive_gender_activity_insensitive_witness :
    calculate_diet_plan "maintenance" 85 180 32 "MALE" "light"
      = calculate_diet_plan "maintenance" 85 180 32 "male" "light" :=
  goal_case_sensitive_gender_activity_insensitive.1 "maintenance" 85 180 32 "light"

end FitnessAgent
